import Mathlib

/-!
A shallow embedding of the Intric-Crawler-Scheduler core (src/main.py and
src/crawler.py) together with proofs about the claims of its specification.

Conventions of the embedding:
* machine timestamps (`datetime.now()`) are modelled as `Nat` values supplied by
  the environment; one timestamp is used per phase of an execution cycle
  (one for the setup/trigger phase, one per polling-loop iteration);
* HTTP interactions with the external crawl service are modelled by
  environment values holding the decoded response bodies (or an error marker
  for a request exception); a JSON key that is absent and a key whose value is
  `null` are both modelled as `none`;
* Python strings stay `String`, Python truthiness of optional strings is
  `pyTruthy` (absent or empty is falsy);
* the per-`(user, website)` registry slot `USER_JOB_STATUS[user_id][site_id]`
  is modelled as an `Option JobStatus`, since `run_crawl_for_site` only ever
  reads and writes that one slot.
-/

/-- Python truthiness for an optional string: `None` and `""` are falsy. -/
def pyTruthy : Option String → Bool
  | none => false
  | some s => s ≠ ""

/-- Test whether the second character list starts with the first. -/
def startsWithChars : List Char → List Char → Bool
  | [], _ => true
  | _ :: _, [] => false
  | x :: xs, y :: ys => x = y && startsWithChars xs ys

/-- Python `str.startswith`. -/
def strStartsWith (a b : String) : Bool := startsWithChars a.toList b.toList

/-- Test whether the first character list occurs contiguously inside the
second. -/
def hasInfixChars (a : List Char) : List Char → Bool
  | [] => startsWithChars a []
  | y :: ys => startsWithChars a (y :: ys) || hasInfixChars a ys

/-- Substring containment, the Python `a in b` test on strings. -/
def strIn (a b : String) : Bool := hasInfixChars a.toList b.toList

/-- Python `str.lower` (character-wise lower-casing). -/
def lowerStr (s : String) : String := ⟨s.toList.map Char.toLower⟩

/-- Python `str.strip` (drop whitespace on both ends). -/
def trimStr (s : String) : String :=
  ⟨((s.toList.dropWhile Char.isWhitespace).reverse.dropWhile
      Char.isWhitespace).reverse⟩

/-- The `JobStatus` dataclass of src/main.py, with `datetime` fields as `Nat`. -/
structure JobStatus where
  site_id : String
  site_name : String
  run_id : Option String := none
  status : String := "idle"
  start_time : Option Nat := none
  end_time : Option Nat := none
  error_message : Option String := none
  last_update : Option Nat := none
  last_successful_crawl : Option Nat := none
deriving DecidableEq

/-- The `latest_crawl` sub-object of a website detail response:
its `status` and `id` keys (absent or null is `none`). -/
structure LatestCrawl where
  status : Option String
  id : Option String
deriving DecidableEq

/-- Outcome of the HTTP GET behind `CrawlerAPIClient.get_website_status`:
either any exception (the method catches everything and returns `None`), or
the decoded website body, reduced to its optional `latest_crawl` object. -/
inductive WebsiteResp where
  | err : WebsiteResp
  | ok (latest : Option LatestCrawl) : WebsiteResp
deriving DecidableEq

/-- The value returned by `get_website_status` when it does not return `None`:
either the special "already active" dict it builds (which carries the
`latest_crawl` object and `already_active = True`), or the plain website body. -/
inductive StatusLookup where
  | activeResp (lc : LatestCrawl) : StatusLookup
  | plain (latest : Option LatestCrawl) : StatusLookup
deriving DecidableEq

/-- `CrawlerAPIClient.get_website_status` (src/main.py lines 447-484): returns
`None` on any error; otherwise, if the latest crawl status is `queued` or
`running`, wraps it in the "already active" response, else returns the body. -/
def get_website_status : WebsiteResp → Option StatusLookup
  | WebsiteResp.err => none
  | WebsiteResp.ok latest =>
    match (latest.getD ⟨none, none⟩).status with
    | some s =>
      if s = "queued" ∨ s = "running" then
        some (StatusLookup.activeResp (latest.getD ⟨none, none⟩))
      else some (StatusLookup.plain latest)
    | none => some (StatusLookup.plain latest)

/-- Lookup of the `latest_crawl` key on a `get_website_status` result:
the "already active" dict always carries it; the plain body has it iff the
upstream body did. -/
def statusLookupLatest : StatusLookup → Option LatestCrawl
  | StatusLookup.activeResp lc => some lc
  | StatusLookup.plain l => l

/-- Outcome of the HTTP GET behind the `/websites/{id}/runs/` listing:
a request error, or the decoded list of `(run id, status)` items. -/
inductive RunsResp where
  | err : RunsResp
  | ok (runs : List (String × String)) : RunsResp
deriving DecidableEq

/-- The run-id branch of `CrawlerAPIClient.get_crawl_status`: scan the runs
list for the given run id and return its status, else `None`. -/
def get_crawl_status_runs (r : RunsResp) (rid : String) : Option String :=
  match r with
  | RunsResp.err => none
  | RunsResp.ok runs =>
    match runs.find? (fun p => p.1 = rid) with
    | some p => some p.2
    | none => none

/-- `CrawlerAPIClient.get_crawl_status` (src/main.py lines 589-615): with a
truthy run id, look the run up in the runs listing; otherwise fall back to the
website's latest crawl status. -/
def get_crawl_status (runsR : RunsResp) (webR : WebsiteResp)
    (runId : Option String) : Option String :=
  if pyTruthy runId then get_crawl_status_runs runsR (runId.getD "")
  else
    match get_website_status webR with
    | some w =>
      match statusLookupLatest w with
      | some lc => lc.status
      | none => none
    | none => none

/-- Decoded JSON body of a trigger (`POST /websites/{id}/run/`) response:
the `intric_error_code` field (for error bodies) and the `id` field (the new
run id, for success bodies). -/
structure TrigBody where
  intric_error_code : Option Nat
  id : Option String
deriving DecidableEq

/-- Raw outcome of the trigger HTTP POST: whether `response.ok`, the status
code, and the decoded JSON body (`none` models a non-JSON body). -/
structure HttpResp where
  ok : Bool
  status_code : Nat
  body : Option TrigBody
deriving DecidableEq

/-- Classified outcome of `CrawlerAPIClient.trigger_crawl` as observed by
`run_crawl_for_site`: `fail` is a `None` return (any `RequestException`,
including the `HTTPError` that `_handle_api_error` raises for non-conflict
errors); `alreadyQueued` is the special soft-conflict dict; `ok` is a success
body with its optional run id; `exn` is an exception escaping the call (a
decode error on a success response), carrying its message. -/
inductive TriggerResp where
  | fail : TriggerResp
  | alreadyQueued : TriggerResp
  | ok (runId : Option String) : TriggerResp
  | exn (msg : String) : TriggerResp
deriving DecidableEq

/-- `CrawlerAPIClient.trigger_crawl` together with `_handle_api_error`
(src/main.py lines 353-374 and 569-587): a request exception returns `None`;
an error response with status 429 and `intric_error_code` 9021 becomes the
soft-conflict value; every other error response is re-raised by
`raise_for_status` and caught as a `RequestException`, so it also returns
`None`; a success response yields its `id`, unless its body fails to decode,
in which case the `ValueError` escapes the method. -/
def trigger_crawl (r : Option HttpResp) (decodeMsg : String) : TriggerResp :=
  match r with
  | none => TriggerResp.fail
  | some resp =>
    if resp.ok then
      match resp.body with
      | some b => TriggerResp.ok b.id
      | none => TriggerResp.exn decodeMsg
    else
      match resp.body with
      | some b =>
        if resp.status_code = 429 ∧ b.intric_error_code = some 9021 then
          TriggerResp.alreadyQueued
        else TriggerResp.fail
      | none => TriggerResp.fail

/-- The `last_successful_crawl` of the previous registry entry, defaulting to
`None` exactly like `.get(job_key, JobStatus(site_id, site_name))` does. -/
def priorLsc (prior : Option JobStatus) : Option Nat :=
  match prior with
  | some p => p.last_successful_crawl
  | none => none

/-- Result of the pre-polling part of `run_crawl_for_site`: the registry slot
after it, whether `trigger_crawl` was invoked, and whether control proceeds to
the status-monitoring loop. -/
structure SetupResult where
  entry : Option JobStatus
  triggered : Bool
  toPoll : Bool
deriving DecidableEq

/-- A website dict as used by the scheduler code: its `id`, `name` and `url`
values. -/
structure Site where
  id : Option String
  name : Option String
  url : Option String
deriving DecidableEq

/-- The Python test `api_status in ("running", "queued")`. -/
def isActiveStatus : Option String → Bool
  | some s => s = "running" ∨ s = "queued"
  | none => false

/-- The fresh registry entry written before triggering a new crawl
(src/main.py lines 672-680). -/
def freshEntry (sid sname : String) (now : Nat) (lsc : Option Nat) : JobStatus :=
  { site_id := sid, site_name := sname, run_id := none, status := "starting",
    start_time := some now, end_time := none, error_message := none,
    last_update := some now, last_successful_crawl := lsc }

/-- The trigger step of `run_crawl_for_site` (src/main.py lines 689-735),
acting on the freshly written entry. -/
def triggerPart (fresh : JobStatus) (trigR : TriggerResp) (now : Nat) : SetupResult :=
  match trigR with
  | TriggerResp.fail =>
    ⟨some { fresh with
              status := "failed",
              error_message := some "Failed to start crawl (API returned empty response)",
              end_time := some now, last_update := some now }, true, false⟩
  | TriggerResp.alreadyQueued =>
    ⟨some { fresh with status := "queued", last_update := some now }, true, true⟩
  | TriggerResp.ok rid =>
    ⟨some { fresh with run_id := rid, status := "running", last_update := some now },
      true, true⟩
  | TriggerResp.exn msg =>
    ⟨some { fresh with
              status := "failed",
              error_message := some ("Error triggering crawl: " ++ msg),
              end_time := some now, last_update := some now }, true, false⟩

/-- The site name fallback `site.get("name") or site_id`. -/
def siteDisplayName (site : Site) (sid : String) : String :=
  match site.name with
  | some n => if n = "" then sid else n
  | none => sid

/-- The registry entry written when adopting an externally already-active
crawl (src/main.py lines 644-653): everything is rebuilt at the adoption
moment, only `last_successful_crawl` is carried over. -/
def adoptEntry (sid sname : String) (lc : LatestCrawl) (now : Nat)
    (lsc : Option Nat) : JobStatus :=
  { site_id := sid, site_name := sname, run_id := lc.id,
    status := lc.status.getD "unknown",
    start_time := some now, end_time := none, error_message := none,
    last_update := some now, last_successful_crawl := lsc }

/-- The single-flight skip test (src/main.py lines 660-664): the stored entry
says `running`/`queued` and a fresh `get_crawl_status` check confirms it. -/
def skipCheck (prior : Option JobStatus) (skipRunsR : RunsResp)
    (skipWebR : WebsiteResp) : Bool :=
  match prior with
  | some js =>
    (js.status = "running" ∨ js.status = "queued") &&
      isActiveStatus (get_crawl_status skipRunsR skipWebR js.run_id)
  | none => false

/-- The pre-polling phase of `run_crawl_for_site` (src/main.py lines 618-735):
missing/empty site id returns without touching the slot; an externally
already-active crawl is adopted (carrying over only `last_successful_crawl`);
else, if the stored entry says `running`/`queued` and a fresh external check
confirms it, the cycle is skipped (only `last_update` is refreshed); else a
fresh `starting` entry is written and the trigger is issued. -/
def setupPhase (site : Site) (prior : Option JobStatus)
    (webR : WebsiteResp) (skipRunsR : RunsResp) (skipWebR : WebsiteResp)
    (trigR : TriggerResp) (now : Nat) : SetupResult :=
  match site.id with
  | none => ⟨prior, false, false⟩
  | some sid =>
    if sid = "" then ⟨prior, false, false⟩
    else
      match get_website_status webR with
      | some (StatusLookup.activeResp lc) =>
        ⟨some (adoptEntry sid (siteDisplayName site sid) lc now (priorLsc prior)),
          false, true⟩
      | _ =>
        if skipCheck prior skipRunsR skipWebR then
          match prior with
          | some js => ⟨some { js with last_update := some now }, false, false⟩
          | none => ⟨prior, false, false⟩
        else
          triggerPart (freshEntry sid (siteDisplayName site sid) now (priorLsc prior))
            trigR now

/-- Environment of one polling-loop iteration: whether an exception interrupts
the iteration (swallowed and retried by the loop), the runs listing and the
website detail responses available to it, and its timestamp. -/
structure PollEnv where
  exn : Bool
  runsR : RunsResp
  webR : WebsiteResp
  time : Nat
deriving DecidableEq

/-- The status-fetch part of one monitoring-loop iteration (src/main.py lines
745-760): with a truthy stored run id, query the runs listing; otherwise read
the website's latest crawl, opportunistically adopting its run id when it is
active.  `none` models the `KeyError` raised by `latest_crawl["status"]` when
an `id` key is present without a `status` key (aborting the iteration). -/
def pollFetch (entry : JobStatus) (p : PollEnv) : Option (Option String × JobStatus) :=
  if pyTruthy entry.run_id then
    some (get_crawl_status_runs p.runsR (entry.run_id.getD ""), entry)
  else
    match get_website_status p.webR with
    | some w =>
      match statusLookupLatest w with
      | some lc =>
        if lc.id.isSome then
          match lc.status with
          | none => none
          | some s =>
            if s = "queued" ∨ s = "running" then
              some (lc.status, { entry with run_id := lc.id })
            else some (lc.status, entry)
        else some (lc.status, entry)
      | none => some (none, entry)
    | none => some (none, entry)

/-- The status-application part of one monitoring-loop iteration (src/main.py
lines 762-798): refresh `last_update`; a falsy status keeps polling; `complete`
records end time and `last_successful_crawl` and stops; `failed`/`cancelled`
record an error message and end time and stop; anything else keeps polling.
The returned flag is the loop's `active` variable. -/
def pollApply (e1 : JobStatus) (st : Option String) (t : Nat) : JobStatus × Bool :=
  if pyTruthy st then
    if st.getD "" = "complete" then
      ({ e1 with
          last_update := some t, status := st.getD "",
          end_time := some t, last_successful_crawl := some t }, false)
    else if st.getD "" = "failed" ∨ st.getD "" = "cancelled" then
      ({ e1 with
          last_update := some t, status := st.getD "",
          error_message := some ("Crawl " ++ st.getD ""),
          end_time := some t }, false)
    else ({ e1 with last_update := some t, status := st.getD "" }, true)
  else ({ e1 with last_update := some t }, true)

/-- One iteration of the monitoring loop (src/main.py lines 743-810): an
exception anywhere in the iteration is swallowed and the loop retries. -/
def pollStep (entry : JobStatus) (p : PollEnv) : JobStatus × Bool :=
  if p.exn then (entry, true)
  else
    match pollFetch entry p with
    | none => (entry, true)
    | some (st, e1) => pollApply e1 st p.time

/-- The monitoring loop of `run_crawl_for_site`, driven by the finite trace of
iteration environments; the boolean reports whether the loop reached a
terminal status within the trace (`false` models a still-running/abandoned
loop). -/
def pollLoop (entry : JobStatus) : List PollEnv → JobStatus × Bool
  | [] => (entry, false)
  | p :: ps =>
    let s := pollStep entry p
    if s.2 then pollLoop s.1 ps else (s.1, true)

/-- The final status fix-up after the monitoring loop (src/main.py lines
812-815). -/
def finalCleanup (e : JobStatus) : JobStatus :=
  if e.status = "running" then
    { e with status := "unknown", error_message := some "Final status unknown" }
  else e

/-- Environment of one full `run_crawl_for_site` invocation. -/
structure RunEnv where
  webR : WebsiteResp
  skipRunsR : RunsResp
  skipWebR : WebsiteResp
  trig : Option HttpResp
  decodeMsg : String
  tSetup : Nat
  polls : List PollEnv
deriving DecidableEq

/-- Result of one `run_crawl_for_site` invocation: the final registry slot,
whether a trigger request was issued, whether the monitoring loop was entered,
and whether the cycle finished (rather than being abandoned mid-loop). -/
structure RunResult where
  entry : Option JobStatus
  triggered : Bool
  polled : Bool
  finished : Bool
deriving DecidableEq

/-- The monitoring part of `run_crawl_for_site`, given the result of the
pre-polling phase: when that phase proceeds to monitoring, run the loop and
apply the final status fix-up once the loop exits. -/
def runFromSetup (su : SetupResult) (polls : List PollEnv) : RunResult :=
  if su.toPoll then
    match su.entry with
    | some e0 =>
      ⟨some (if (pollLoop e0 polls).2 then finalCleanup (pollLoop e0 polls).1
          else (pollLoop e0 polls).1), su.triggered, true, (pollLoop e0 polls).2⟩
    | none => ⟨none, su.triggered, true, false⟩
  else ⟨su.entry, su.triggered, false, true⟩

/-- `run_crawl_for_site` (src/main.py lines 618-819): the pre-polling phase
followed, when it does not return early, by the monitoring loop and the final
status fix-up. -/
def run_crawl_for_site (site : Site) (prior : Option JobStatus) (env : RunEnv) :
    RunResult :=
  runFromSetup
    (setupPhase site prior env.webR env.skipRunsR env.skipWebR
      (trigger_crawl env.trig env.decodeMsg) env.tSetup)
    env.polls

/-- The stagger-offset formula used when onboarding a batch of jobs:
`min(index * step, cap)` seconds (src/main.py lines 1003, 1071, 1227). -/
def stagger (step cap i : Nat) : Nat := min (i * step) cap

/-- The deterministic APScheduler job identifier for a (user, website) pair
(src/main.py `f"{user_id}_crawl_{site_id}"`). -/
def jobId (user sid : String) : String := user ++ "_crawl_" ++ sid

/-- One timer owned by the APScheduler instance: its job id and its initial
`next_run_time`. -/
structure SchedJob where
  jid : String
  nextRun : Nat
deriving DecidableEq

/-- The process-wide mutable state touched by the scheduling endpoints:
whether a user is configured (present in `USER_CONFIGS`/`USER_API_CLIENTS`),
the `USER_JOBS_CREATED` flags, the cached `USER_WEBSITES` lists, the
`USER_JOB_STATUS` registry, and the scheduler's timer list. -/
structure GState where
  configured : String → Bool
  jobsCreated : String → Bool
  websites : String → List Site
  jobStatus : String → String → Option JobStatus
  schedJobs : List SchedJob

/-- The fresh `idle` registry entry written while scheduling a site
(src/main.py lines 993-998, 1061-1066, 1217-1222). -/
def idleEntry (sid sname : String) (t : Nat) : JobStatus :=
  { site_id := sid, site_name := sname, run_id := none, status := "idle",
    start_time := none, end_time := none, error_message := none,
    last_update := some t, last_successful_crawl := none }

/-- The per-site scheduling loop shared by `start_scheduling`,
`start_configured_users` and `refresh_websites_for_user`
(src/main.py lines 985-1016, 1053-1084, 1210-1242): `enumerate` from index
`i`; sites with a falsy id are skipped (the index still advances); otherwise
an `idle` registry entry is written and a timer with the deterministic job id
and next-run offset `min(i * step, cap)` is added.  `add_job` without
`replace_existing` raises `ConflictingIdError` on a duplicate id, which
escapes the loop: this is the `false` outcome, leaving the mutations made so
far in place. -/
def withIdle (sid sname : String) (t : Nat)
    (js : String → Option JobStatus) : String → Option JobStatus :=
  fun k => if k = sid then some (idleEntry sid sname t) else js k

def scheduleSitesFrom (user : String) (t step cap : Nat) :
    Nat → List Site → (String → Option JobStatus) → List SchedJob →
    ((String → Option JobStatus) × List SchedJob × Bool)
  | _, [], js, sj => (js, sj, true)
  | i, site :: rest, js, sj =>
    match site.id with
    | none => scheduleSitesFrom user t step cap (i + 1) rest js sj
    | some sid =>
      if sid = "" then scheduleSitesFrom user t step cap (i + 1) rest js sj
      else if sj.any (fun x => x.jid = jobId user sid) then
        (withIdle sid (siteDisplayName site sid) t js, sj, false)
      else
        scheduleSitesFrom user t step cap (i + 1) rest
          (withIdle sid (siteDisplayName site sid) t js)
          (sj ++ [⟨jobId user sid, t + stagger step cap i⟩])

/-- The state produced by the scheduling part of `start_scheduling` once the
website list `ws` has been fetched and found non-empty: cache the list, run
the per-site loop, and set `USER_JOBS_CREATED` only if the loop completed. -/
def startResult (user : String) (ws : List Site) (t : Nat) (σ : GState) :
    GState :=
  { configured := σ.configured,
    jobsCreated :=
      if (scheduleSitesFrom user t 20 300 0 ws (σ.jobStatus user)
            σ.schedJobs).2.2 then
        (fun u => if u = user then true else σ.jobsCreated u)
      else σ.jobsCreated,
    websites := fun u => if u = user then ws else σ.websites u,
    jobStatus := fun u =>
      if u = user then
        (scheduleSitesFrom user t 20 300 0 ws (σ.jobStatus user) σ.schedJobs).1
      else σ.jobStatus u,
    schedJobs :=
      (scheduleSitesFrom user t 20 300 0 ws (σ.jobStatus user) σ.schedJobs).2.1 }

/-- The `/start/{user_id}` endpoint `start_scheduling` (src/main.py lines
1178-1250).  `fetch` is the outcome of `get_websites` (`none` models the
exception turned into a 500, which leaves all state untouched).  An unknown
user (404) and an already-started user (early return) leave the state
unchanged; an empty website list only caches it; otherwise the scheduling
loop runs with step 20 and cap 300, and `USER_JOBS_CREATED` is set only when
the loop completes without a conflict error. -/
def start_scheduling (user : String) (fetch : Option (List Site)) (t : Nat)
    (σ : GState) : GState :=
  if σ.configured user = false then σ
  else if σ.jobsCreated user then σ
  else
    match fetch with
    | none => σ
    | some ws =>
      if ws.isEmpty then
        { σ with websites := fun u => if u = user then ws else σ.websites u }
      else startResult user ws t σ

/-- `refresh_websites_for_user` (src/main.py lines 1024-1098): diff the
freshly fetched website list against the ids cached in `USER_WEBSITES` and
onboard only the new sites, with step 10 and cap 120.  A fetch error (`none`)
is caught and leaves the state untouched. -/
def refresh_websites_for_user (user : String) (fetch : Option (List Site))
    (t : Nat) (σ : GState) : GState :=
  if σ.configured user = false then σ
  else
    match fetch with
    | none => σ
    | some latest =>
      let current := (σ.websites user).filterMap
        (fun s => if pyTruthy s.id then some (s.id.getD "") else none)
      let σ1 : GState :=
        { σ with websites := fun u => if u = user then latest else σ.websites u }
      let newSites := latest.filter
        (fun s => pyTruthy s.id && !(current.contains (s.id.getD "")))
      if newSites.isEmpty then σ1
      else
        let r := scheduleSitesFrom user t 10 120 0 newSites (σ1.jobStatus user)
          σ1.schedJobs
        { σ1 with
            jobStatus := fun u => if u = user then r.1 else σ1.jobStatus u,
            schedJobs := r.2.1,
            jobsCreated :=
              if r.2.2 then (fun u => if u = user then true else σ.jobsCreated u)
              else σ.jobsCreated }

/-- The `stopped` overwrite applied to a registry entry by `clear_jobs`
(src/main.py lines 958-963). -/
def stopEntry (t : Nat) (e : JobStatus) : JobStatus :=
  { e with status := "stopped", end_time := some t, last_update := some t }

/-- `clear_jobs` (src/main.py lines 946-963): remove every scheduler timer
whose id starts with `f"{user_id}_crawl_"`, reset the jobs-created flag, and
mark every registry entry of the user `stopped` (entries are mutated in
place, never deleted); configuration maps are untouched. -/
def clear_jobs (user : String) (t : Nat) (σ : GState) : GState :=
  { σ with
      schedJobs := σ.schedJobs.filter
        (fun j => !(strStartsWith (user ++ "_crawl_") j.jid)),
      jobsCreated := fun u => if u = user then false else σ.jobsCreated u,
      jobStatus := fun u s =>
        if u = user then (σ.jobStatus u s).map (stopEntry t)
        else σ.jobStatus u s }

/-- The `/stop/{user_id}` endpoint `stop_scheduling` (src/main.py lines
1252-1264): 404 for an unknown user, otherwise `clear_jobs`; the user's
configuration is preserved. -/
def stop_scheduling (user : String) (t : Nat) (σ : GState) : GState :=
  if σ.configured user = false then σ else clear_jobs user t σ

/-- The function-attribute state of `generate_user_status_summary`:
`last_summary_time` (`none` models the `datetime.min` default) and the
`called_from_endpoint` flag. -/
structure SummaryState where
  last_summary_time : Option Nat
  called_from_endpoint : Bool
deriving DecidableEq

/-- The value returned by `generate_user_status_summary`: the empty dict,
the `no_users` dict, or the structured summary dict (abstracted to the
timestamp it embeds; its per-user content is irrelevant to the claims about
the rate limiter). -/
inductive SummaryResult where
  | empty : SummaryResult
  | noUsers : SummaryResult
  | generated (timestamp : Nat) : SummaryResult
deriving DecidableEq

/-- `generate_user_status_summary` (src/main.py lines 123-317): outside
production log mode every call returns `{}` without touching the limiter
state; otherwise a non-endpoint call within 60 seconds of the last recorded
generation returns `{}` unchanged; otherwise the limiter state is refreshed
(flag cleared, time recorded) and the summary (or the `no_users` dict) is
produced. -/
def generate_user_status_summary (logProduction hasUsers : Bool) (now : Nat)
    (st : SummaryState) : SummaryResult × SummaryState :=
  if logProduction = false then (SummaryResult.empty, st)
  else if !st.called_from_endpoint &&
      (match st.last_summary_time with
       | none => false
       | some l => now - l < 60) then (SummaryResult.empty, st)
  else if hasUsers = false then (SummaryResult.noUsers, ⟨some now, false⟩)
  else (SummaryResult.generated now, ⟨some now, false⟩)

/-- The `/system/status-summary` endpoint `generate_status_summary`
(src/main.py lines 1368-1379): set the `called_from_endpoint` flag and call
the generator. -/
def generate_status_summary (logProduction hasUsers : Bool) (now : Nat)
    (st : SummaryState) : SummaryResult × SummaryState :=
  generate_user_status_summary logProduction hasUsers now
    { st with called_from_endpoint := true }

/-- Drop trailing `'/'` characters: Python `str.rstrip('/')`. -/
def rstripSlash (s : String) : String :=
  ⟨(s.toList.reverse.dropWhile (fun c => c = '/')).reverse⟩

/-- Keep the part of the string before the first occurrence of `c`
(Python `s.split(c)[0]`, also correct when `c` does not occur). -/
def dropFromChar (c : Char) (s : String) : String :=
  ⟨s.toList.takeWhile (fun a => a ≠ c)⟩

/-- `CrawlerAPIClient._normalize_url` of src/main.py (lines 376-390):
lower-case, strip, drop trailing slashes, then cut at `#` and at `?`. -/
def normalize_url (url : String) : String :=
  dropFromChar '?' (dropFromChar '#' (rstripSlash (trimStr (lowerStr url))))

/-- `CrawlerAPIClient._normalize_url` of src/crawler.py (lines 88-92):
lower-case, strip and drop trailing slashes only. -/
def crawlerNormalize (url : String) : String := rstripSlash (trimStr (lowerStr url))

/-- The normalized identifier set built for a site by
`get_websites_for_space` (src/main.py lines 529-537): id, name and url are
stringified, stripped, and normalized. -/
def siteIdentifiers (s : Site) : List String :=
  [ normalize_url (trimStr (s.id.getD "")),
    normalize_url (trimStr (s.name.getD "")),
    normalize_url (trimStr (s.url.getD "")) ]

/-- The per-site filter test of `get_websites_for_space` (src/main.py lines
539-553): some filter string and some identifier, both with non-empty
normalizations, contain one another as substrings in either direction. -/
def spaceFilterMatch (filters : List String) (s : Site) : Bool :=
  filters.any fun f =>
    (siteIdentifiers s).any fun ident =>
      ident ≠ "" && normalize_url f ≠ "" &&
        (strIn (normalize_url f) ident || strIn ident (normalize_url f))

/-- The filtering pass of `CrawlerAPIClient.get_websites_for_space`
(src/main.py lines 527-556), applied when a website filter is configured. -/
def get_websites_for_space_filter (filters : List String) (sites : List Site) :
    List Site :=
  sites.filter (spaceFilterMatch filters)

/-- The normalized identifier set built by the legacy `get_websites`
(src/crawler.py lines 117-126). -/
def crawlerSiteIdentifiers (s : Site) : List String :=
  [ crawlerNormalize (trimStr (s.id.getD "")),
    crawlerNormalize (trimStr (s.name.getD "")),
    crawlerNormalize (trimStr (s.url.getD "")) ]

/-- The filtering pass of the legacy `CrawlerAPIClient.get_websites`
(src/crawler.py lines 115-137): a site is kept when some normalized filter
string is *exactly equal* to one of its normalized identifiers
(`clean_filter in site_identifiers` is set membership, not substring
containment). -/
def crawler_get_websites_filter (filters : List String) (sites : List Site) :
    List Site :=
  sites.filter fun s =>
    filters.any fun f => (crawlerSiteIdentifiers s).contains (crawlerNormalize f)

/-- The claim's matching predicate, written from the specification's words:
some normalized filter string and some normalized identifier of the site
stand in substring containment in either direction (with no non-emptiness
qualification). -/
def claimSubstrMatch (filters : List String) (s : Site) : Bool :=
  filters.any fun f =>
    (siteIdentifiers s).any fun ident =>
      strIn (normalize_url f) ident || strIn ident (normalize_url f)

/-! ## Helper lemmas about the executor -/

theorem pollFetch_frame (entry : JobStatus) (p : PollEnv) (st : Option String)
    (e1 : JobStatus) (h : pollFetch entry p = some (st, e1)) :
    e1.status = entry.status ∧
    e1.last_successful_crawl = entry.last_successful_crawl := by
  unfold pollFetch at h
  repeat' split at h
  all_goals simp only [Option.some.injEq, Prod.mk.injEq, reduceCtorEq] at h
  all_goals obtain ⟨h1, h2⟩ := h
  all_goals subst h2
  all_goals exact ⟨rfl, rfl⟩

theorem pollLoop_cons (entry : JobStatus) (p : PollEnv) (ps : List PollEnv) :
    pollLoop entry (p :: ps) =
      if (pollStep entry p).2 then pollLoop (pollStep entry p).1 ps
      else ((pollStep entry p).1, true) := rfl

theorem pollApply_stop (e1 : JobStatus) (st : Option String) (t : Nat)
    (e2 : JobStatus) (h : pollApply e1 st t = (e2, false)) :
    (e2.status = "complete" ∧ e2.last_successful_crawl = some t) ∨
    ((e2.status = "failed" ∨ e2.status = "cancelled") ∧
      e2.last_successful_crawl = e1.last_successful_crawl) := by
  unfold pollApply at h
  split at h
  · split at h
    · injection h with h1 h2
      subst h1
      rename_i hc
      exact Or.inl ⟨hc, rfl⟩
    · split at h
      · injection h with h1 h2
        subst h1
        rename_i hfc
        exact Or.inr ⟨hfc, rfl⟩
      · injection h with h1 h2
        exact Bool.noConfusion h2
  · injection h with h1 h2
    exact Bool.noConfusion h2

theorem pollApply_go (e1 : JobStatus) (st : Option String) (t : Nat)
    (e2 : JobStatus) (h : pollApply e1 st t = (e2, true)) :
    e2.last_successful_crawl = e1.last_successful_crawl ∧
    (e2.status = "complete" → e1.status = "complete") := by
  unfold pollApply at h
  split at h
  · split at h
    · injection h with h1 h2
      exact Bool.noConfusion h2
    · split at h
      · injection h with h1 h2
        exact Bool.noConfusion h2
      · injection h with h1 h2
        subst h1
        rename_i hnc _
        exact ⟨rfl, fun hc => absurd hc hnc⟩
  · injection h with h1 h2
    subst h1
    exact ⟨rfl, fun hc => hc⟩

theorem pollStep_stop (entry : JobStatus) (p : PollEnv) (e2 : JobStatus)
    (h : pollStep entry p = (e2, false)) :
    (e2.status = "complete" ∧ e2.last_successful_crawl = some p.time) ∨
    ((e2.status = "failed" ∨ e2.status = "cancelled") ∧
      e2.last_successful_crawl = entry.last_successful_crawl) := by
  unfold pollStep at h
  split at h
  · injection h with h1 h2
    exact Bool.noConfusion h2
  · split at h
    · injection h with h1 h2
      exact Bool.noConfusion h2
    · rename_i st e1 heq
      rcases pollApply_stop _ _ _ _ h with h1 | h1
      · exact Or.inl h1
      · exact Or.inr ⟨h1.1, h1.2.trans (pollFetch_frame _ _ _ _ heq).2⟩

theorem pollStep_go (entry : JobStatus) (p : PollEnv) (e2 : JobStatus)
    (h : pollStep entry p = (e2, true)) :
    e2.last_successful_crawl = entry.last_successful_crawl ∧
    (e2.status = "complete" → entry.status = "complete") := by
  unfold pollStep at h
  split at h
  · injection h with h1 h2
    subst h1
    exact ⟨rfl, fun hc => hc⟩
  · split at h
    · injection h with h1 h2
      subst h1
      exact ⟨rfl, fun hc => hc⟩
    · rename_i st e1 heq
      obtain ⟨hfs, hfl⟩ := pollFetch_frame _ _ _ _ heq
      obtain ⟨h1, h2⟩ := pollApply_go _ _ _ _ h
      exact ⟨h1.trans hfl, fun hc => hfs ▸ h2 hc⟩

theorem pollLoop_inv (polls : List PollEnv) (entry : JobStatus) :
    ((pollLoop entry polls).1.status = "complete" →
      entry.status = "complete" ∨
      ∃ p ∈ polls, (pollLoop entry polls).1.last_successful_crawl = some p.time) ∧
    (((pollLoop entry polls).1.status = "failed" ∨
      (pollLoop entry polls).1.status = "cancelled") →
      (pollLoop entry polls).1.last_successful_crawl =
        entry.last_successful_crawl) := by
  induction polls generalizing entry with
  | nil => exact ⟨fun h => Or.inl h, fun _ => rfl⟩
  | cons p ps ih =>
    rw [pollLoop_cons]
    cases hs : pollStep entry p with
    | mk e1 act =>
      cases act with
      | true =>
        simp only
        obtain ⟨hl, hc⟩ := pollStep_go _ _ _ hs
        refine ⟨fun h => ?_, fun h => ?_⟩
        · rcases (ih e1).1 h with h1 | ⟨q, hq, hlq⟩
          · exact Or.inl (hc h1)
          · exact Or.inr ⟨q, List.mem_cons_of_mem _ hq, hlq⟩
        · exact ((ih e1).2 h).trans hl
      | false =>
        simp only [Bool.false_eq_true, if_false]
        rcases pollStep_stop _ _ _ hs with ⟨h1, h2⟩ | ⟨h1, h2⟩
        · refine ⟨fun _ => Or.inr ⟨p, List.mem_cons_self .., h2⟩, fun h => ?_⟩
          rcases h with h | h <;> rw [h1] at h <;> exact absurd h (by decide)
        · refine ⟨fun h => ?_, fun _ => h2⟩
          rcases h1 with h1 | h1 <;> rw [h1] at h <;> exact absurd h (by decide)


theorem get_website_status_active (webR : WebsiteResp) (lc : LatestCrawl)
    (h : get_website_status webR = some (StatusLookup.activeResp lc)) :
    lc.status = some "queued" ∨ lc.status = some "running" := by
  unfold get_website_status at h
  split at h
  · exact Option.noConfusion h
  · rename_i latest
    split at h
    · rename_i s hst
      split at h
      · rename_i hqr
        simp only [Option.some.injEq, StatusLookup.activeResp.injEq] at h
        subst h
        rcases hqr with hq | hq <;> rw [hst, hq]
        · exact Or.inl rfl
        · exact Or.inr rfl
      · simp at h
    · simp at h

theorem setupPhase_cases (site : Site) (prior : Option JobStatus)
    (webR : WebsiteResp) (skipRunsR : RunsResp) (skipWebR : WebsiteResp)
    (trigR : TriggerResp) (now : Nat) :
    setupPhase site prior webR skipRunsR skipWebR trigR now = ⟨prior, false, false⟩ ∨
    (∃ sid lc, site.id = some sid ∧ sid ≠ "" ∧
      get_website_status webR = some (StatusLookup.activeResp lc) ∧
      setupPhase site prior webR skipRunsR skipWebR trigR now =
        ⟨some (adoptEntry sid (siteDisplayName site sid) lc now (priorLsc prior)),
          false, true⟩) ∨
    (∃ js, prior = some js ∧
      setupPhase site prior webR skipRunsR skipWebR trigR now =
        ⟨some { js with last_update := some now }, false, false⟩) ∨
    (∃ sid, site.id = some sid ∧ sid ≠ "" ∧
      setupPhase site prior webR skipRunsR skipWebR trigR now =
        triggerPart (freshEntry sid (siteDisplayName site sid) now (priorLsc prior))
          trigR now) := by
  unfold setupPhase
  split
  · exact Or.inl rfl
  · rename_i sid hid
    split
    · exact Or.inl rfl
    · rename_i hne
      split
      · rename_i lc hws
        exact Or.inr (Or.inl ⟨sid, lc, hid, hne, hws, rfl⟩)
      · split
        · split
          · rename_i js hsc
            exact Or.inr (Or.inr (Or.inl ⟨js, rfl, rfl⟩))
          · exact Or.inl rfl
        · exact Or.inr (Or.inr (Or.inr ⟨sid, hid, hne, rfl⟩))

theorem triggerPart_entry_lsc (fresh : JobStatus) (trigR : TriggerResp) (now : Nat)
    (e : JobStatus) (h : (triggerPart fresh trigR now).entry = some e) :
    e.last_successful_crawl = fresh.last_successful_crawl := by
  unfold triggerPart at h
  split at h <;> (simp only [Option.some.injEq] at h; rw [← h])

theorem setup_entry_lsc (site : Site) (prior : Option JobStatus)
    (webR : WebsiteResp) (skipRunsR : RunsResp) (skipWebR : WebsiteResp)
    (trigR : TriggerResp) (now : Nat) (e : JobStatus)
    (h : (setupPhase site prior webR skipRunsR skipWebR trigR now).entry = some e) :
    e.last_successful_crawl = priorLsc prior := by
  rcases setupPhase_cases site prior webR skipRunsR skipWebR trigR now with
    hc | ⟨sid, lc, -, -, -, hc⟩ | ⟨js, hpr, hc⟩ | ⟨sid, -, -, hc⟩
  · rw [hc] at h
    have h1 : prior = some e := h
    subst h1
    rfl
  · rw [hc] at h
    simp only [Option.some.injEq] at h
    subst h
    exact rfl
  · subst hpr
    rw [hc] at h
    simp only [Option.some.injEq] at h
    subst h
    exact rfl
  · rw [hc] at h
    exact triggerPart_entry_lsc _ _ _ _ h

theorem setup_toPoll_entry (site : Site) (prior : Option JobStatus)
    (webR : WebsiteResp) (skipRunsR : RunsResp) (skipWebR : WebsiteResp)
    (trigR : TriggerResp) (now : Nat)
    (h : (setupPhase site prior webR skipRunsR skipWebR trigR now).toPoll = true) :
    ∃ e, (setupPhase site prior webR skipRunsR skipWebR trigR now).entry = some e ∧
      e.last_successful_crawl = priorLsc prior ∧
      (e.status = "queued" ∨ e.status = "running") := by
  rcases setupPhase_cases site prior webR skipRunsR skipWebR trigR now with
    hc | ⟨sid, lc, -, -, hws, hc⟩ | ⟨js, hpr, hc⟩ | ⟨sid, -, -, hc⟩
  · rw [hc] at h
    exact Bool.noConfusion h
  · refine ⟨_, by rw [hc], rfl, ?_⟩
    rcases get_website_status_active _ _ hws with hq | hq <;>
      rw [show (adoptEntry sid (siteDisplayName site sid) lc now
        (priorLsc prior)).status = lc.status.getD "unknown" from rfl, hq]
    · exact Or.inl rfl
    · exact Or.inr rfl
  · rw [hc] at h
    exact Bool.noConfusion h
  · rw [hc] at h ⊢
    unfold triggerPart at h ⊢
    split at h
    · exact Bool.noConfusion h
    · exact ⟨_, rfl, rfl, Or.inl rfl⟩
    · exact ⟨_, rfl, rfl, Or.inr rfl⟩
    · exact Bool.noConfusion h

/-- The error message recorded by `run_crawl_for_site` for each hard trigger
failure (src/main.py lines 692 and 724). -/
def triggerErrMsg : TriggerResp → String
  | TriggerResp.fail => "Failed to start crawl (API returned empty response)"
  | TriggerResp.exn m => "Error triggering crawl: " ++ m
  | _ => ""

/-! ## Claims C1, C10, C3, C4 -/

/-- C1: if the external status check reports an already-active crawl
(status `queued` or `running`) with run id R, then one invocation of
`run_crawl_for_site` issues no trigger request, and the registry entry it
writes in its adoption step (the pre-polling phase) has `run_id = R` and
status equal to the externally reported status. -/
theorem claim_C1_adopt_active_no_trigger
    (site : Site) (prior : Option JobStatus) (env : RunEnv)
    (lc : LatestCrawl) (s rid sid : String)
    (hweb : env.webR = WebsiteResp.ok (some lc))
    (hst : lc.status = some s) (hqr : s = "queued" ∨ s = "running")
    (hid : lc.id = some rid)
    (hsite : site.id = some sid) (hne : sid ≠ "") :
    (run_crawl_for_site site prior env).triggered = false ∧
    ∃ e, (setupPhase site prior env.webR env.skipRunsR env.skipWebR
        (trigger_crawl env.trig env.decodeMsg) env.tSetup).entry = some e ∧
      e.run_id = some rid ∧ e.status = s := by
  have hws : get_website_status env.webR = some (StatusLookup.activeResp lc) := by
    rw [hweb]
    unfold get_website_status
    simp only [Option.getD_some, hst, if_pos hqr]
  have hsetup : setupPhase site prior env.webR env.skipRunsR env.skipWebR
      (trigger_crawl env.trig env.decodeMsg) env.tSetup =
      ⟨some (adoptEntry sid (siteDisplayName site sid) lc env.tSetup
        (priorLsc prior)), false, true⟩ := by
    unfold setupPhase
    simp only [hsite, hne, hws, if_neg hne]
    simp
  constructor
  · unfold run_crawl_for_site
    rw [hsetup]
    rfl
  · refine ⟨_, by rw [hsetup], ?_, ?_⟩
    · show lc.id = some rid
      exact hid
    · show lc.status.getD "unknown" = s
      rw [hst]
      rfl

/-- C10: when the executor adopts an externally already-active crawl, the
previous registry entry is replaced wholesale: `start_time` and `last_update`
are the adoption timestamp, `end_time` and `error_message` are reset to
`None`, the run id and status come from the external report, and
`last_successful_crawl` is the only field carried over from the previous
entry. -/
theorem claim_C10_adopt_frame
    (site : Site) (prior : Option JobStatus) (env : RunEnv)
    (lc : LatestCrawl) (s sid : String)
    (hweb : env.webR = WebsiteResp.ok (some lc))
    (hst : lc.status = some s) (hqr : s = "queued" ∨ s = "running")
    (hsite : site.id = some sid) (hne : sid ≠ "") :
    (setupPhase site prior env.webR env.skipRunsR env.skipWebR
        (trigger_crawl env.trig env.decodeMsg) env.tSetup).entry =
      some { site_id := sid, site_name := siteDisplayName site sid,
             run_id := lc.id, status := s,
             start_time := some env.tSetup, end_time := none,
             error_message := none, last_update := some env.tSetup,
             last_successful_crawl := priorLsc prior } := by
  have hws : get_website_status env.webR = some (StatusLookup.activeResp lc) := by
    rw [hweb]
    unfold get_website_status
    simp only [Option.getD_some, hst, if_pos hqr]
  unfold setupPhase
  simp only [hsite, hne, hws, if_neg hne]
  simp only [if_neg not_false, SetupResult.mk.injEq]
  unfold adoptEntry
  rw [hst]
  simp

/-- C3: in a cycle whose trigger request fails hard (a `None` return from
`trigger_crawl` — covering network errors, validation errors and every other
non-conflict error response — or an exception escaping it), the registry
entry ends the cycle with status `failed`, the captured error text and an end
time, and the polling loop is never entered: the cycle finishes immediately. -/
theorem claim_C3_trigger_hard_failure
    (site : Site) (prior : Option JobStatus) (env : RunEnv)
    (htr : (run_crawl_for_site site prior env).triggered = true)
    (hf : trigger_crawl env.trig env.decodeMsg = TriggerResp.fail ∨
      ∃ m, trigger_crawl env.trig env.decodeMsg = TriggerResp.exn m) :
    (run_crawl_for_site site prior env).polled = false ∧
    (run_crawl_for_site site prior env).finished = true ∧
    ∃ e, (run_crawl_for_site site prior env).entry = some e ∧
      e.status = "failed" ∧ e.end_time = some env.tSetup ∧
      e.error_message =
        some (triggerErrMsg (trigger_crawl env.trig env.decodeMsg)) := by
  rcases setupPhase_cases site prior env.webR env.skipRunsR env.skipWebR
      (trigger_crawl env.trig env.decodeMsg) env.tSetup with
    hc | ⟨sid, lc, -, -, -, hc⟩ | ⟨js, -, hc⟩ | ⟨sid, -, -, hc⟩
  · unfold run_crawl_for_site at htr
    rw [hc] at htr
    exact Bool.noConfusion htr
  · unfold run_crawl_for_site at htr
    rw [hc] at htr
    exact Bool.noConfusion htr
  · unfold run_crawl_for_site at htr
    rw [hc] at htr
    exact Bool.noConfusion htr
  · unfold run_crawl_for_site
    rw [hc]
    rcases hf with hT | ⟨m, hT⟩ <;> rw [hT] <;> unfold triggerPart runFromSetup <;>
      exact ⟨rfl, rfl, _, rfl, rfl, rfl, rfl⟩

/-- C4: in a cycle whose trigger request returns the soft-conflict signal
(an error response with HTTP status 429 and `intric_error_code` 9021), the
executor raises nothing, the registry entry after the trigger step has status
`queued` with `run_id` still null, and the cycle proceeds to the polling
loop. -/
theorem claim_C4_trigger_soft_conflict
    (site : Site) (prior : Option JobStatus) (env : RunEnv)
    (resp : HttpResp) (b : TrigBody)
    (hresp : env.trig = some resp) (hok : resp.ok = false)
    (hcode : resp.status_code = 429) (hbody : resp.body = some b)
    (herr : b.intric_error_code = some 9021)
    (htr : (run_crawl_for_site site prior env).triggered = true) :
    (run_crawl_for_site site prior env).polled = true ∧
    ∃ e, (setupPhase site prior env.webR env.skipRunsR env.skipWebR
        (trigger_crawl env.trig env.decodeMsg) env.tSetup).entry = some e ∧
      e.status = "queued" ∧ e.run_id = none := by
  have hT : trigger_crawl env.trig env.decodeMsg = TriggerResp.alreadyQueued := by
    rw [hresp]
    unfold trigger_crawl
    simp [hok, hbody, hcode, herr]
  rcases setupPhase_cases site prior env.webR env.skipRunsR env.skipWebR
      (trigger_crawl env.trig env.decodeMsg) env.tSetup with
    hc | ⟨sid, lc, -, -, -, hc⟩ | ⟨js, -, hc⟩ | ⟨sid, -, -, hc⟩
  · unfold run_crawl_for_site at htr
    rw [hc] at htr
    exact Bool.noConfusion htr
  · unfold run_crawl_for_site at htr
    rw [hc] at htr
    exact Bool.noConfusion htr
  · unfold run_crawl_for_site at htr
    rw [hc] at htr
    exact Bool.noConfusion htr
  · rw [hT] at hc
    constructor
    · unfold run_crawl_for_site
      rw [hT, hc]
      rfl
    · rw [hT, hc]
      exact ⟨_, rfl, rfl, rfl⟩

/-- C2: across one execution cycle, `last_successful_crawl` is non-decreasing:
a cycle whose final registry entry has status `complete` holds a value ≥ the
previous one (assuming the environment clock never runs before the previously
recorded success time), and a cycle ending `failed` or `cancelled` leaves
`last_successful_crawl` exactly equal to its previous value. -/
theorem claim_C2_lsc_monotone
    (site : Site) (prior : Option JobStatus) (env : RunEnv) (e : JobStatus)
    (h : (run_crawl_for_site site prior env).entry = some e)
    (hclock : ∀ p ∈ env.polls, ∀ a, priorLsc prior = some a → a ≤ p.time) :
    ((e.status = "failed" ∨ e.status = "cancelled") →
      e.last_successful_crawl = priorLsc prior) ∧
    (e.status = "complete" →
      ∀ a, priorLsc prior = some a →
        ∃ b, e.last_successful_crawl = some b ∧ a ≤ b) := by
  unfold run_crawl_for_site runFromSetup at h
  cases htp : (setupPhase site prior env.webR env.skipRunsR env.skipWebR
      (trigger_crawl env.trig env.decodeMsg) env.tSetup).toPoll with
  | false =>
    rw [htp] at h
    simp only [Bool.false_eq_true, if_false] at h
    have hl := setup_entry_lsc site prior env.webR env.skipRunsR env.skipWebR
      (trigger_crawl env.trig env.decodeMsg) env.tSetup e h
    refine ⟨fun _ => hl, fun _ a ha => ⟨a, ?_, le_refl a⟩⟩
    rw [hl, ha]
  | true =>
    rw [htp] at h
    simp only [if_true] at h
    obtain ⟨e0, hsu, hlsc0, hst0⟩ := setup_toPoll_entry site prior env.webR
      env.skipRunsR env.skipWebR (trigger_crawl env.trig env.decodeMsg)
      env.tSetup htp
    rw [hsu] at h
    simp only [Option.some.injEq] at h
    have hinv := pollLoop_inv env.polls e0
    have he0nc : e0.status ≠ "complete" := by
      rcases hst0 with h1 | h1 <;> rw [h1] <;> decide
    -- relate e to the loop result
    cases hfin : (pollLoop e0 env.polls).2 with
    | false =>
      rw [hfin] at h
      simp only [Bool.false_eq_true, if_false] at h
      subst h
      refine ⟨fun hfc => (hinv.2 hfc).trans hlsc0, fun hcm a ha => ?_⟩
      rcases hinv.1 hcm with h1 | ⟨p, hp, hlp⟩
      · exact absurd h1 he0nc
      · exact ⟨p.time, hlp, hclock p hp a ha⟩
    | true =>
      rw [hfin] at h
      simp only [if_true] at h
      subst h
      unfold finalCleanup
      by_cases hr : (pollLoop e0 env.polls).1.status = "running"
      · rw [if_pos hr]
        refine ⟨fun hfc => ?_, fun hcm => ?_⟩
        · rcases hfc with hfc | hfc <;> simp at hfc
        · simp at hcm
      · rw [if_neg hr]
        refine ⟨fun hfc => (hinv.2 hfc).trans hlsc0, fun hcm a ha => ?_⟩
        rcases hinv.1 hcm with h1 | ⟨p, hp, hlp⟩
        · exact absurd h1 he0nc
        · exact ⟨p.time, hlp, hclock p hp a ha⟩

/-! ## Concrete fixtures and witnesses for the executor claims -/

/-- A concrete website dict used by the witnesses. -/
def wsiteA : Site := ⟨some "7", some "Seven", none⟩

/-- A concrete already-running latest-crawl report. -/
def lcRun : LatestCrawl := ⟨some "running", some "r1"⟩

/-- Environment whose status check reports an already-running crawl. -/
def envAdoptW : RunEnv :=
  ⟨WebsiteResp.ok (some lcRun), RunsResp.err, WebsiteResp.err, none, "", 3, []⟩

/-- Environment whose trigger request fails with a network error. -/
def envFailW : RunEnv :=
  ⟨WebsiteResp.ok none, RunsResp.err, WebsiteResp.err, none, "", 5, []⟩

/-- Environment whose trigger request returns the 429/9021 soft conflict. -/
def envConflictW : RunEnv :=
  ⟨WebsiteResp.ok none, RunsResp.err, WebsiteResp.err,
    some ⟨false, 429, some ⟨some 9021, none⟩⟩, "", 5, []⟩

/-- A concrete previous registry entry with a recorded success time. -/
def priorW : Option JobStatus :=
  some ⟨"7", "Seven", some "old", "failed", some 1, some 2, some "boom",
    some 2, some 42⟩

/-- Witness for C1 at the concrete already-running report. -/
theorem claim_C1_adopt_active_no_trigger_w :
    (run_crawl_for_site wsiteA none envAdoptW).triggered = false :=
  (claim_C1_adopt_active_no_trigger wsiteA none envAdoptW lcRun "running" "r1"
    "7" rfl rfl (Or.inr rfl) rfl rfl (by decide)).1

/-- Witness for C2 at a concretely failing cycle: the entry it ends with
keeps the previous `last_successful_crawl` (here `none`). -/
theorem claim_C2_lsc_monotone_w :
    (⟨"7", "Seven", none, "failed", some 5, some 5,
      some "Failed to start crawl (API returned empty response)", some 5,
      none⟩ : JobStatus).last_successful_crawl = priorLsc none :=
  (claim_C2_lsc_monotone wsiteA none envFailW _ (by decide)
    (by intro p hp a ha; simp [envFailW] at hp)).1 (Or.inl rfl)

/-- Witness for C3 at the concrete network-error trigger. -/
theorem claim_C3_trigger_hard_failure_w :
    (run_crawl_for_site wsiteA none envFailW).polled = false ∧
    (run_crawl_for_site wsiteA none envFailW).finished = true :=
  ⟨(claim_C3_trigger_hard_failure wsiteA none envFailW (by decide)
      (Or.inl rfl)).1,
   (claim_C3_trigger_hard_failure wsiteA none envFailW (by decide)
      (Or.inl rfl)).2.1⟩

/-- Witness for C4 at the concrete 429/9021 response. -/
theorem claim_C4_trigger_soft_conflict_w :
    (run_crawl_for_site wsiteA none envConflictW).polled = true :=
  (claim_C4_trigger_soft_conflict wsiteA none envConflictW
    ⟨false, 429, some ⟨some 9021, none⟩⟩ ⟨some 9021, none⟩
    rfl rfl rfl rfl rfl (by decide)).1

/-- Witness for C10 at the concrete adoption over a junk-filled previous
entry: only its `last_successful_crawl` (42) survives. -/
theorem claim_C10_adopt_frame_w :
    (setupPhase wsiteA priorW envAdoptW.webR envAdoptW.skipRunsR
        envAdoptW.skipWebR (trigger_crawl envAdoptW.trig envAdoptW.decodeMsg)
        envAdoptW.tSetup).entry =
      some { site_id := "7", site_name := siteDisplayName wsiteA "7",
             run_id := lcRun.id, status := "running",
             start_time := some 3, end_time := none,
             error_message := none, last_update := some 3,
             last_successful_crawl := priorLsc priorW } :=
  claim_C10_adopt_frame wsiteA priorW envAdoptW lcRun "running" "7"
    rfl rfl (Or.inr rfl) rfl (by decide)

/-! ## Helper lemmas about the scheduling loop -/

theorem scheduleSitesFrom_extends (user : String) (t step cap : Nat)
    (ws : List Site) :
    ∀ (i : Nat) (js : String → Option JobStatus) (sj : List SchedJob),
      ∃ c, (scheduleSitesFrom user t step cap i ws js sj).2.1 = sj ++ c := by
  induction ws with
  | nil => exact fun i js sj => ⟨[], by simp [scheduleSitesFrom]⟩
  | cons site rest ih =>
    intro i js sj
    unfold scheduleSitesFrom
    split
    · exact ih (i + 1) js sj
    · rename_i sid hid
      split
      · exact ih (i + 1) js sj
      · split
        · exact ⟨[], by simp⟩
        · obtain ⟨c, hc⟩ := ih (i + 1) (withIdle sid (siteDisplayName site sid) t js)
            (sj ++ [⟨jobId user sid, t + stagger step cap i⟩])
          refine ⟨⟨jobId user sid, t + stagger step cap i⟩ :: c, ?_⟩
          rw [hc, List.append_assoc]
          rfl

theorem scheduleSitesFrom_rerun (user : String) (t step cap : Nat)
    (ws : List Site) :
    ∀ (i : Nat) (js js2 : String → Option JobStatus) (sj : List SchedJob)
      (t2 i2 : Nat),
      (scheduleSitesFrom user t step cap i ws js sj).2.2 = false →
      (scheduleSitesFrom user t2 step cap i2 ws js2
          (scheduleSitesFrom user t step cap i ws js sj).2.1).2.1 =
        (scheduleSitesFrom user t step cap i ws js sj).2.1 ∧
      (scheduleSitesFrom user t2 step cap i2 ws js2
          (scheduleSitesFrom user t step cap i ws js sj).2.1).2.2 = false := by
  induction ws with
  | nil =>
    intro i js js2 sj t2 i2 h
    simp [scheduleSitesFrom] at h
  | cons site rest ih =>
    intro i js js2 sj t2 i2 h
    rw [scheduleSitesFrom] at h
    cases hid : site.id with
    | none =>
      rw [hid] at h
      simp only [scheduleSitesFrom, hid]
      exact ih (i + 1) js js2 sj t2 (i2 + 1) h
    | some sid =>
      rw [hid] at h
      simp only at h
      by_cases hsid : sid = ""
      · rw [if_pos hsid] at h
        simp only [scheduleSitesFrom, hid, if_pos hsid]
        exact ih (i + 1) js js2 sj t2 (i2 + 1) h
      · rw [if_neg hsid] at h
        by_cases hconf : (sj.any fun x => x.jid = jobId user sid) = true
        · rw [if_pos hconf] at h
          simp only [scheduleSitesFrom, hid, if_neg hsid, if_pos hconf]
          exact ⟨trivial, trivial⟩
        · rw [if_neg hconf] at h
          have hmem : ((scheduleSitesFrom user t step cap (i + 1) rest
              (withIdle sid (siteDisplayName site sid) t js)
              (sj ++ [⟨jobId user sid, t + stagger step cap i⟩])).2.1.any
                fun x => x.jid = jobId user sid) = true := by
            obtain ⟨c, hc⟩ := scheduleSitesFrom_extends user t step cap rest (i + 1)
              (withIdle sid (siteDisplayName site sid) t js)
              (sj ++ [⟨jobId user sid, t + stagger step cap i⟩])
            rw [hc]
            simp only [List.any_eq_true]
            exact ⟨⟨jobId user sid, t + stagger step cap i⟩, by simp, by simp⟩
          simp only [scheduleSitesFrom, hid, if_neg hsid, if_neg hconf, if_pos hmem]
          exact ⟨trivial, trivial⟩

theorem scheduleSitesFrom_nodup (user : String) (t step cap : Nat)
    (ws : List Site) :
    ∀ (i : Nat) (js : String → Option JobStatus) (sj : List SchedJob),
      (sj.map SchedJob.jid).Nodup →
      ((scheduleSitesFrom user t step cap i ws js sj).2.1.map SchedJob.jid).Nodup := by
  induction ws with
  | nil =>
    intro i js sj h
    simpa [scheduleSitesFrom] using h
  | cons site rest ih =>
    intro i js sj h
    rw [scheduleSitesFrom]
    cases hid : site.id with
    | none => exact ih (i + 1) js sj h
    | some sid =>
      simp only
      by_cases hsid : sid = ""
      · rw [if_pos hsid]
        exact ih (i + 1) js sj h
      · rw [if_neg hsid]
        by_cases hconf : (sj.any fun x => x.jid = jobId user sid) = true
        · rw [if_pos hconf]
          exact h
        · rw [if_neg hconf]
          apply ih
          rw [List.map_append, List.nodup_append]
          refine ⟨h, by simp, ?_⟩
          intro a ha hb
          simp only [List.map_cons, List.map_nil, List.mem_singleton] at hb
          subst hb
          simp only [List.mem_map] at ha
          obtain ⟨x, hx, hxa⟩ := ha
          exact hconf (List.any_eq_true.mpr ⟨x, hx, by simp [hxa]⟩)

theorem scheduleSitesFrom_offsets (user : String) (t step cap : Nat)
    (ws : List Site) :
    ∀ (i : Nat) (js : String → Option JobStatus) (sj : List SchedJob),
      (∀ s ∈ ws, ∃ sid, s.id = some sid ∧ sid ≠ "") →
      ((ws.map fun s => jobId user (s.id.getD "")).Nodup) →
      (∀ s ∈ ws, ∀ x ∈ sj, x.jid ≠ jobId user (s.id.getD "")) →
      (scheduleSitesFrom user t step cap i ws js sj).2.1 =
        sj ++ (List.enumFrom i ws).map
          (fun p => ⟨jobId user (p.2.id.getD ""), t + stagger step cap p.1⟩) ∧
      (scheduleSitesFrom user t step cap i ws js sj).2.2 = true := by
  induction ws with
  | nil =>
    intro i js sj h1 h2 h3
    exact ⟨by simp [scheduleSitesFrom], rfl⟩
  | cons site rest ih =>
    intro i js sj h1 h2 h3
    obtain ⟨sid, hid, hsid⟩ := h1 site (List.mem_cons_self ..)
    rw [scheduleSitesFrom, hid]
    simp only
    rw [if_neg hsid]
    have hconf : (sj.any fun x => x.jid = jobId user sid) = false := by
      rw [Bool.eq_false_iff]
      intro hc
      obtain ⟨x, hx, hxe⟩ := List.any_eq_true.mp hc
      refine h3 site (List.mem_cons_self ..) x hx ?_
      rw [hid]
      exact of_decide_eq_true hxe
    rw [hconf]
    simp only [Bool.false_eq_true, if_false]
    have hids : site.id.getD "" = sid := by rw [hid]; rfl
    rw [List.map_cons, List.nodup_cons] at h2
    have IH := ih (i + 1) (withIdle sid (siteDisplayName site sid) t js)
      (sj ++ [⟨jobId user sid, t + stagger step cap i⟩])
      (fun s hs => h1 s (List.mem_cons_of_mem _ hs))
      h2.2
      ?_
    · refine ⟨?_, IH.2⟩
      rw [IH.1, List.enumFrom_cons, List.map_cons, List.append_assoc, hids]
      rfl
    · intro s hs x hx
      rcases List.mem_append.mp hx with hx1 | hx1
      · exact h3 s (List.mem_cons_of_mem _ hs) x hx1
      · rw [List.mem_singleton] at hx1
        subst hx1
        show jobId user sid ≠ jobId user (s.id.getD "")
        intro heq
        exact h2.1 (List.mem_map.mpr ⟨s, hs, by rw [hids]; exact heq.symm⟩)

/-! ## Claims C5, C6, C7 -/

/-- C5: with the external website listing held fixed, calling
`start_scheduling` a second time without an intervening stop leaves the
scheduler's timer set exactly as after the first call, and a call never
introduces duplicate timer ids. -/
theorem claim_C5_start_idempotent (σ : GState) (user : String)
    (fetch : Option (List Site)) (t1 t2 : Nat) :
    (start_scheduling user fetch t2
        (start_scheduling user fetch t1 σ)).schedJobs =
      (start_scheduling user fetch t1 σ).schedJobs ∧
    ((σ.schedJobs.map SchedJob.jid).Nodup →
      ((start_scheduling user fetch t1 σ).schedJobs.map SchedJob.jid).Nodup) := by
  by_cases hcfg : σ.configured user = false
  · have h1 : ∀ t, start_scheduling user fetch t σ = σ := fun t => by
      unfold start_scheduling
      rw [if_pos hcfg]
    rw [h1 t1, h1 t2]
    exact ⟨rfl, fun h => h⟩
  · by_cases hjc : σ.jobsCreated user = true
    · have h1 : ∀ t, start_scheduling user fetch t σ = σ := fun t => by
        unfold start_scheduling
        rw [if_neg hcfg, if_pos hjc]
      rw [h1 t1, h1 t2]
      exact ⟨rfl, fun h => h⟩
    · cases fetch with
      | none =>
        have h1 : ∀ t, start_scheduling user (none : Option (List Site)) t σ = σ :=
          fun t => by
            unfold start_scheduling
            rw [if_neg hcfg, if_neg hjc]
        rw [h1 t1, h1 t2]
        exact ⟨rfl, fun h => h⟩
      | some ws =>
        by_cases hemp : ws.isEmpty = true
        · have h1 : ∀ t, start_scheduling user (some ws) t σ =
              { σ with websites := fun u => if u = user then ws else σ.websites u } :=
            fun t => by
              unfold start_scheduling
              rw [if_neg hcfg, if_neg hjc]
              simp only [hemp, if_true]
          have h2 : (start_scheduling user (some ws) t2
              { σ with websites := fun u =>
                  if u = user then ws else σ.websites u }).schedJobs =
              σ.schedJobs := by
            unfold start_scheduling
            rw [if_neg hcfg, if_neg hjc]
            simp only [hemp, if_true]
          rw [h1 t1, h2]
          exact ⟨rfl, fun h => h⟩
        · have h1 : start_scheduling user (some ws) t1 σ = startResult user ws t1 σ := by
            unfold start_scheduling
            rw [if_neg hcfg, if_neg hjc]
            simp only [hemp, Bool.false_eq_true, if_false]
          have hnd : (σ.schedJobs.map SchedJob.jid).Nodup →
              ((start_scheduling user (some ws) t1 σ).schedJobs.map SchedJob.jid).Nodup := by
            intro h
            rw [h1]
            exact scheduleSitesFrom_nodup user t1 20 300 ws 0
              (σ.jobStatus user) σ.schedJobs h
          refine ⟨?_, hnd⟩
          rw [h1]
          cases hok : (scheduleSitesFrom user t1 20 300 0 ws
              (σ.jobStatus user) σ.schedJobs).2.2 with
          | true =>
            have h2 : start_scheduling user (some ws) t2 (startResult user ws t1 σ) =
                startResult user ws t1 σ := by
              unfold start_scheduling
              rw [if_neg ?_, if_pos ?_]
              · show (if _ then _ else σ.jobsCreated) user = true
                rw [if_pos hok]
                simp
              · show ¬σ.configured user = false
                exact hcfg
            rw [h2]
          | false =>
            have h2 : start_scheduling user (some ws) t2 (startResult user ws t1 σ) =
                startResult user ws t2 (startResult user ws t1 σ) := by
              unfold start_scheduling
              rw [if_neg ?_, if_neg ?_]
              · simp only [hemp, Bool.false_eq_true, if_false]
              · show ¬(if _ then _ else σ.jobsCreated) user = true
                rw [if_neg ?_]
                · exact hjc
                · rw [hok]
                  simp
              · show ¬σ.configured user = false
                exact hcfg
            rw [h2]
            show (scheduleSitesFrom user t2 20 300 0 ws
                ((startResult user ws t1 σ).jobStatus user)
                (scheduleSitesFrom user t1 20 300 0 ws (σ.jobStatus user)
                  σ.schedJobs).2.1).2.1 =
              (scheduleSitesFrom user t1 20 300 0 ws (σ.jobStatus user)
                σ.schedJobs).2.1
            exact (scheduleSitesFrom_rerun user t1 20 300 ws 0 (σ.jobStatus user)
              _ σ.schedJobs t2 0 hok).1

/-- C6: clearing a tenant's jobs overwrites every one of its registry entries
to `stopped` with end time and last update set (deleting none of them),
removes exactly the scheduler timers whose id carries the tenant's
`{user}_crawl_` job-id marker, and leaves the configuration maps untouched. -/
theorem claim_C6_clear_jobs (σ : GState) (user : String) (t : Nat)
    (s : String) (e : JobStatus) (j : SchedJob)
    (he : σ.jobStatus user s = some e) (hj : j ∈ σ.schedJobs) :
    (clear_jobs user t σ).jobStatus user s =
      some { e with
              status := "stopped", end_time := some t,
              last_update := some t } ∧
    (j ∈ (clear_jobs user t σ).schedJobs ↔
      strStartsWith (user ++ "_crawl_") j.jid = false) ∧
    (clear_jobs user t σ).configured = σ.configured ∧
    ∀ u2 s2, ((clear_jobs user t σ).jobStatus u2 s2).isSome =
      (σ.jobStatus u2 s2).isSome := by
  refine ⟨?_, ?_, rfl, ?_⟩
  · show (if user = user then (σ.jobStatus user s).map (stopEntry t)
      else σ.jobStatus user s) = _
    rw [if_pos rfl, he]
    rfl
  · show j ∈ σ.schedJobs.filter (fun x => !(strStartsWith (user ++ "_crawl_") x.jid)) ↔ _
    rw [List.mem_filter]
    constructor
    · intro h
      rw [← Bool.not_eq_true']
      exact h.2
    · intro h
      exact ⟨hj, by rw [Bool.not_eq_true', h]⟩
  · intro u2 s2
    show (if u2 = user then (σ.jobStatus u2 s2).map (stopEntry t)
      else σ.jobStatus u2 s2).isSome = _
    by_cases hu : u2 = user
    · rw [if_pos hu]
      cases σ.jobStatus u2 s2 <;> rfl
    · rw [if_neg hu]

/-- C7: the per-site scheduling loop, started at index 0 over a batch of
sites with non-empty, pairwise-distinct job ids and no pre-existing timer
conflict, assigns the job at index i the next-run offset
`stagger step cap i = min(i * step, cap)` (step/cap being 20/300 for the
start paths and 10/120 for the discovery path); the offset sequence is
non-decreasing in the index and bounded by cap. -/
theorem claim_C7_stagger (user : String) (t step cap : Nat) (ws : List Site)
    (js : String → Option JobStatus) (sj : List SchedJob)
    (h1 : ∀ s ∈ ws, ∃ sid, s.id = some sid ∧ sid ≠ "")
    (h2 : (ws.map fun s => jobId user (s.id.getD "")).Nodup)
    (h3 : ∀ s ∈ ws, ∀ x ∈ sj, x.jid ≠ jobId user (s.id.getD "")) :
    (scheduleSitesFrom user t step cap 0 ws js sj).2.1 =
      sj ++ ws.enum.map
        (fun p => ⟨jobId user (p.2.id.getD ""), t + stagger step cap p.1⟩) ∧
    (∀ i j, i ≤ j → stagger step cap i ≤ stagger step cap j) ∧
    (∀ i, stagger step cap i ≤ cap) := by
  refine ⟨?_, ?_, fun i => min_le_right _ _⟩
  · rw [List.enum_eq_enumFrom]
    exact (scheduleSitesFrom_offsets user t step cap ws 0 js sj h1 h2 h3).1
  · intro i j hij
    exact min_le_min (Nat.mul_le_mul_right _ hij) (le_refl cap)

/-! ## Fixtures and witnesses for the scheduler claims -/

/-- A concrete two-site website list. -/
def wsW : List Site := [⟨some "1", some "A", none⟩, ⟨some "2", some "B", none⟩]

/-- A concrete global state with one configured user and no jobs. -/
def gstW : GState :=
  ⟨fun u => u = "u", fun _ => false, fun _ => [], fun _ _ => none, []⟩

/-- A concrete global state holding one registry entry and one timer. -/
def gstC6 : GState :=
  ⟨fun u => u = "u", fun _ => true, fun _ => [],
    fun u s => if u = "u" ∧ s = "1" then
      some ⟨"1", "A", some "r", "running", some 1, none, none, some 2, some 3⟩
    else none,
    [⟨"u_crawl_1", 7⟩]⟩

/-- Witness for C5 on the concrete state and website list. -/
theorem claim_C5_start_idempotent_w :
    (start_scheduling "u" (some wsW) 9
        (start_scheduling "u" (some wsW) 7 gstW)).schedJobs =
      (start_scheduling "u" (some wsW) 7 gstW).schedJobs ∧
    ((start_scheduling "u" (some wsW) 7 gstW).schedJobs.map SchedJob.jid).Nodup :=
  ⟨(claim_C5_start_idempotent gstW "u" (some wsW) 7 9).1,
   (claim_C5_start_idempotent gstW "u" (some wsW) 7 9).2 (by decide)⟩

/-- Witness for C6 on the concrete one-entry state. -/
theorem claim_C6_clear_jobs_w :
    (clear_jobs "u" 9 gstC6).jobStatus "u" "1" =
      some ⟨"1", "A", some "r", "stopped", some 1, some 9, none, some 9, some 3⟩ ∧
    ((⟨"u_crawl_1", 7⟩ : SchedJob) ∈ (clear_jobs "u" 9 gstC6).schedJobs ↔
      strStartsWith ("u" ++ "_crawl_") "u_crawl_1" = false) ∧
    (clear_jobs "u" 9 gstC6).configured = gstC6.configured ∧
    ((clear_jobs "u" 9 gstC6).jobStatus "x" "1").isSome =
      (gstC6.jobStatus "x" "1").isSome := by
  have h := claim_C6_clear_jobs gstC6 "u" 9 "1"
    ⟨"1", "A", some "r", "running", some 1, none, none, some 2, some 3⟩
    ⟨"u_crawl_1", 7⟩ (by decide) (by decide)
  exact ⟨h.1, h.2.1, h.2.2.1, h.2.2.2 "x" "1"⟩

/-- Witness for C7 on the concrete two-site batch with step 20, cap 300. -/
theorem claim_C7_stagger_w :
    (scheduleSitesFrom "u" 7 20 300 0 wsW (fun _ => none) []).2.1 =
      [] ++ wsW.enum.map
        (fun p => ⟨jobId "u" (p.2.id.getD ""), 7 + stagger 20 300 p.1⟩) ∧
    stagger 20 300 1 ≤ stagger 20 300 2 ∧ stagger 20 300 99 ≤ 300 := by
  have h := claim_C7_stagger "u" 7 20 300 wsW (fun _ => none) []
    (by
      intro s hs
      simp only [wsW, List.mem_cons, List.mem_singleton] at hs
      rcases hs with rfl | rfl | hs
      · exact ⟨"1", rfl, by decide⟩
      · exact ⟨"2", rfl, by decide⟩
      · simp at hs)
    (by decide)
    (by intro s hs x hx; simp at hx)
  exact ⟨h.1, h.2.1 1 2 (by decide), h.2.2 99⟩

/-! ## Claim C8 (summary rate limiter) -/

/-- C8 counterexample: the claim fails as stated, at two explicit inputs.
First, outside production log mode an explicit on-demand call still returns
the empty dict, so "every call made with the explicit flag returns a
populated result" is false.  Second, with a generation recorded at time 0,
a non-explicit call at 59 is suppressed without refreshing the cool-down,
and a second non-explicit call at 118 — only 59 seconds after the first —
produces a populated summary, so "for every pair of calls less than 60
seconds apart the second returns an empty result" is also false. -/
theorem claim_C8_counterexample :
    (generate_status_summary false true 5 ⟨none, false⟩).1 =
      SummaryResult.empty ∧
    generate_user_status_summary true true 59 ⟨some 0, false⟩ =
      (SummaryResult.empty, ⟨some 0, false⟩) ∧
    118 - 59 < 60 ∧
    (generate_user_status_summary true true 118
        (generate_user_status_summary true true 59 ⟨some 0, false⟩).2).1 =
      SummaryResult.generated 118 := by
  refine ⟨rfl, rfl, by decide, rfl⟩

theorem gen_summary_cases (hu : Bool) (now : Nat) (st : SummaryState) :
    generate_user_status_summary true hu now st = (SummaryResult.empty, st) ∨
    generate_user_status_summary true hu now st =
      ((if hu = false then SummaryResult.noUsers
        else SummaryResult.generated now), ⟨some now, false⟩) := by
  unfold generate_user_status_summary
  rw [if_neg (by decide : ¬(true = false))]
  split
  · exact Or.inl rfl
  · right
    split
    · rfl
    · rfl

theorem gen_summary_suppressed (hu : Bool) (now l : Nat) (hlt : now - l < 60) :
    generate_user_status_summary true hu now ⟨some l, false⟩ =
      (SummaryResult.empty, ⟨some l, false⟩) := by
  unfold generate_user_status_summary
  rw [if_neg (by decide : ¬(true = false)), if_pos (by simp [hlt])]

/-- C8 amended: in production log mode, if a summary-generation call actually
produced a non-empty result, then any call made less than 60 seconds later
without the explicit flag returns the empty result; and a call through the
explicit on-demand endpoint never returns the empty result (it bypasses the
cool-down).  Outside production mode every call — including an explicit
on-demand one — returns the empty result. -/
theorem claim_C8_amended (hu hu2 : Bool) (t1 t2 : Nat) (st : SummaryState) :
    ((generate_user_status_summary true hu t1 st).1 ≠ SummaryResult.empty →
      t2 - t1 < 60 →
      (generate_user_status_summary true hu2 t2
        (generate_user_status_summary true hu t1 st).2).1 =
        SummaryResult.empty) ∧
    (generate_status_summary true hu t1 st).1 ≠ SummaryResult.empty ∧
    (generate_status_summary false hu t1 st).1 = SummaryResult.empty := by
  refine ⟨?_, ?_, rfl⟩
  · intro hne hlt
    rcases gen_summary_cases hu t1 st with heq | heq
    · rw [heq] at hne
      exact absurd rfl hne
    · rw [heq, gen_summary_suppressed hu2 t2 t1 hlt]
  · unfold generate_status_summary generate_user_status_summary
    rw [if_neg (by decide : ¬(true = false)), if_neg (by simp)]
    split <;> simp

/-- Witness for the amended C8 at concrete times: a generation at time 0
suppresses the non-explicit call at time 30, and the explicit endpoint call
is never empty. -/
theorem claim_C8_amended_w :
    (generate_user_status_summary true true 30
        (generate_user_status_summary true true 0 ⟨none, false⟩).2).1 =
      SummaryResult.empty ∧
    (generate_status_summary true true 0 ⟨none, false⟩).1 ≠ SummaryResult.empty :=
  ⟨(claim_C8_amended true true 0 30 ⟨none, false⟩).1 (by decide) (by decide),
   (claim_C8_amended true true 0 30 ⟨none, false⟩).2.1⟩

/-! ## Claim C9 (website filtering) -/

/-- The first website of the specification's filtering scenario. -/
def siteAcme : Site := ⟨some "1", some "ACME Corp", some "https://acme.com/"⟩

/-- The second website of the specification's filtering scenario. -/
def siteOther : Site := ⟨some "2", some "Other", some "https://other.com"⟩

/-- C9 counterexample: the claim's characterisation ("kept exactly when some
normalized filter string and some normalized identifier stand in substring
containment in either direction") is false for the cited code.  First, the
legacy `get_websites` of src/crawler.py keeps a site only on *exact*
normalized-identifier equality: on the specification's own scenario it keeps
nothing, although "acme" is a substring of the normalized name "acme corp".
Second, even the space-based filter of src/main.py ignores filter strings
whose normalization is empty: the filter "/" normalizes to "", which is a
substring of every identifier, yet no site is kept. -/
theorem claim_C9_counterexample :
    crawler_get_websites_filter ["acme"] [siteAcme, siteOther] = [] ∧
    claimSubstrMatch ["acme"] siteAcme = true ∧
    get_websites_for_space_filter ["/"] [siteAcme, siteOther] = [] ∧
    claimSubstrMatch ["/"] siteAcme = true := by
  refine ⟨by decide, by decide, by decide, by decide⟩

/-- C9 amended: the space-based filter of src/main.py keeps a website exactly
when some filter string and some site identifier (id, name or url), *both
with non-empty normalizations*, stand in substring containment in either
direction — on the scenario (filter "acme") exactly the site with id 1 is
kept — while the legacy `get_websites` of src/crawler.py instead keeps a
website exactly when some normalized filter string equals one of its
normalized identifiers. -/
theorem claim_C9_amended (filters : List String) (sites : List Site)
    (s : Site) :
    (s ∈ get_websites_for_space_filter filters sites ↔
      s ∈ sites ∧ ∃ f ∈ filters, ∃ ident ∈ siteIdentifiers s,
        ident ≠ "" ∧ normalize_url f ≠ "" ∧
        (strIn (normalize_url f) ident = true ∨
          strIn ident (normalize_url f) = true)) ∧
    get_websites_for_space_filter ["acme"] [siteAcme, siteOther] = [siteAcme] ∧
    (s ∈ crawler_get_websites_filter filters sites ↔
      s ∈ sites ∧ ∃ f ∈ filters,
        crawlerNormalize f ∈ crawlerSiteIdentifiers s) := by
  refine ⟨?_, by decide, ?_⟩
  · rw [get_websites_for_space_filter, List.mem_filter]
    apply and_congr_right
    intro hs
    simp only [spaceFilterMatch, List.any_eq_true, Bool.and_eq_true,
      decide_eq_true_eq, Bool.or_eq_true, ne_eq, and_assoc]
  · rw [crawler_get_websites_filter, List.mem_filter]
    apply and_congr_right
    intro hs
    simp only [List.any_eq_true, List.contains, List.elem_iff]

/-- Witness for the amended C9: the scenario instance and the crawler.py
characterization at a concrete exact-match filter. -/
theorem claim_C9_amended_w :
    get_websites_for_space_filter ["acme"] [siteAcme, siteOther] = [siteAcme] ∧
    (siteAcme ∈ crawler_get_websites_filter ["1"] [siteAcme, siteOther] ↔
      siteAcme ∈ [siteAcme, siteOther] ∧ ∃ f ∈ ["1"],
        crawlerNormalize f ∈ crawlerSiteIdentifiers siteAcme) :=
  ⟨(claim_C9_amended [] [] siteAcme).2.1,
   (claim_C9_amended ["1"] [siteAcme, siteOther] siteAcme).2.2⟩
